import Mathlib

/-!
Verification of the trip-planning orchestration core of the Gemini_Hackaton
repository against its specification.

The development shallowly embeds the Python sources:
  * `agents/profiler.py` (the keyword profiler instantiated by `main.py`),
  * `backend/agents/profiler.py` (the LLM profiler),
  * `backend/agents/trend_spotter.py` (the broadening retry loop),
  * `tasks.py` (the background task subsystem, asyncio mode),
  * `agents/optimizer.py` (the itinerary builder / date assignment),
  * `main.py` (the `AntigravityAgentManager` orchestrator and the chat endpoint).

External collaborators (the Gemini "Reasoning Service", the social/maps/graph
providers, the creative director) are modelled as oracle functions supplied as
parameters, exactly at the call sites where the source invokes them.
-/

/-! ## String utilities

Python's `pat in s` substring test and `str.lower`, over explicit char lists. -/

/-- `prefixMatch pat s` is true when `pat` is a prefix of `s` (char lists). -/
def prefixMatch : List Char → List Char → Bool
  | [], _ => true
  | _ :: _, [] => false
  | a :: as, b :: bs => a == b && prefixMatch as bs

/-- `infixMatch pat s`: `pat` occurs as a contiguous substring of `s`. -/
def infixMatch (pat : List Char) : List Char → Bool
  | [] => prefixMatch pat []
  | c :: rest => prefixMatch pat (c :: rest) || infixMatch pat rest

/-- Python's `pat in s` on strings. -/
def strContains (s pat : String) : Bool := infixMatch pat.toList s.toList

/-- ASCII lower-casing of one character (`str.lower` on the inputs involved). -/
def charLower (c : Char) : Char :=
  if 65 ≤ c.toNat && c.toNat ≤ 90 then Char.ofNat (c.toNat + 32) else c

/-- `str.lower` (ASCII). -/
def strLower (s : String) : String := String.mk (s.toList.map charLower)

/-- A single-quote character as a string (used in keyword literals). -/
def squoteStr : String := String.mk [Char.ofNat 39]

/-! ## Data model: `TravelerProfile` (agents/profiler.py, dataclass)

Both profiler variants declare the same nine fields with the same defaults. -/

structure TravelerProfile where
  dietary_restrictions : List String
  religious_requirements : List String
  allergies : List String
  budget_level : String
  travel_style : String
  accessibility_needs : List String
  group_size : Nat
  interests : List String
  language_preferences : List String
deriving DecidableEq, Repr

/-- The dataclass defaults: `TravelerProfile()`. -/
def defaultProfile : TravelerProfile :=
  { dietary_restrictions := []
    religious_requirements := []
    allergies := []
    budget_level := "moderate"
    travel_style := "balanced"
    accessibility_needs := []
    group_size := 1
    interests := []
    language_preferences := ["English"] }

/-- Values stored in the dict views of profiles and of LLM-extracted deltas. -/
inductive PVal where
  | s : String → PVal
  | l : List String → PVal
  | n : Nat → PVal
deriving DecidableEq, Repr

/-- `TravelerProfile.to_dict` (= `dataclasses.asdict`): the nine declared
fields, in declaration order.  No other key ever appears. -/
def TravelerProfile.to_dict (p : TravelerProfile) : List (String × PVal) :=
  [("dietary_restrictions", .l p.dietary_restrictions),
   ("religious_requirements", .l p.religious_requirements),
   ("allergies", .l p.allergies),
   ("budget_level", .s p.budget_level),
   ("travel_style", .s p.travel_style),
   ("accessibility_needs", .l p.accessibility_needs),
   ("group_size", .n p.group_size),
   ("interests", .l p.interests),
   ("language_preferences", .l p.language_preferences)]

/-- `d.get(k)` on a dict view. -/
def dictGet (d : List (String × PVal)) (k : String) : Option PVal :=
  (d.find? (fun kv => kv.1 == k)).map (fun kv => kv.2)

/-- Python truthiness of a `PVal` (`bool(v)`). -/
def pvTruthy : PVal → Bool
  | .s s => !s.toList.isEmpty
  | .l xs => !xs.isEmpty
  | .n n => n != 0

/-! ## The keyword profiler (just-travel-app/agents/profiler.py)

This is the `ProfilerAgent` that `main.py` instantiates inside the module-level
singleton `agent_manager`; `process` reads and mutates the instance field
`self.current_profile`, which we model by threading that field explicitly:
`process : TravelerProfile → String → TravelerProfile × ProfilerResponse`. -/

def DIETARY_KEYWORDS : List (String × String) :=
  [("vegetarian", "vegetarian"), ("vegan", "vegan"), ("pescatarian", "pescatarian"),
   ("gluten-free", "gluten_free"), ("gluten free", "gluten_free"),
   ("dairy-free", "dairy_free"), ("dairy free", "dairy_free"), ("lactose", "dairy_free"),
   ("no meat", "vegetarian"), ("plant-based", "vegan"), ("plant based", "vegan")]

def RELIGIOUS_KEYWORDS : List (String × String) :=
  [("halal", "halal"), ("kosher", "kosher"), ("hindu", "hindu_dietary"),
   ("buddhist", "buddhist_dietary"), ("jain", "jain_dietary")]

def BUDGET_KEYWORDS : List (String × String) :=
  [("budget", "budget"), ("cheap", "budget"), ("affordable", "budget"),
   ("backpack", "budget"), ("moderate", "moderate"), ("mid-range", "moderate"),
   ("luxury", "luxury"), ("premium", "luxury"), ("high-end", "luxury"),
   ("expensive", "luxury"), ("splurge", "luxury")]

def TRAVEL_STYLE_KEYWORDS : List (String × String) :=
  [("adventure", "adventure"), ("adventurous", "adventure"),
   ("relaxation", "relaxation"), ("relaxing", "relaxation"), ("peaceful", "relaxation"),
   ("cultural", "cultural"), ("culture", "cultural"), ("historical", "cultural"),
   ("foodie", "culinary"), ("culinary", "culinary"), ("food tour", "culinary"),
   ("nature", "nature"), ("outdoor", "nature"), ("hiking", "nature"),
   ("beach", "beach"), ("coastal", "beach"),
   ("nightlife", "nightlife"), ("party", "nightlife"),
   ("family", "family_friendly"), ("kid", "family_friendly"),
   ("romantic", "romantic"), ("honeymoon", "romantic")]

def ALLERGY_KEYWORDS : List String :=
  ["allergy", "allergic", "can" ++ squoteStr ++ "t eat", "cannot eat",
   "intolerant", "intolerance"]

def COMMON_ALLERGENS : List String :=
  ["peanut", "nut", "shellfish", "seafood", "egg", "soy", "wheat", "milk", "fish", "sesame"]

/-- `_extract_dietary`: append each matched restriction once, table order. -/
def extract_dietary (query : String) (p : TravelerProfile) : TravelerProfile :=
  DIETARY_KEYWORDS.foldl
    (fun p kv =>
      if strContains query kv.1 && !(p.dietary_restrictions.contains kv.2) then
        { p with dietary_restrictions := p.dietary_restrictions ++ [kv.2] }
      else p) p

/-- `_extract_religious`. -/
def extract_religious (query : String) (p : TravelerProfile) : TravelerProfile :=
  RELIGIOUS_KEYWORDS.foldl
    (fun p kv =>
      if strContains query kv.1 && !(p.religious_requirements.contains kv.2) then
        { p with religious_requirements := p.religious_requirements ++ [kv.2] }
      else p) p

/-- `_extract_budget`: first matching keyword wins (the loop breaks). -/
def extract_budget (query : String) (p : TravelerProfile) : TravelerProfile :=
  match BUDGET_KEYWORDS.find? (fun kv => strContains query kv.1) with
  | some kv => { p with budget_level := kv.2 }
  | none => p

/-- `_extract_travel_style`: appends the matched styles to `interests`. -/
def extract_travel_style (query : String) (p : TravelerProfile) : TravelerProfile :=
  TRAVEL_STYLE_KEYWORDS.foldl
    (fun p kv =>
      if strContains query kv.1 && !(p.interests.contains kv.2) then
        { p with interests := p.interests ++ [kv.2] }
      else p) p

/-- `_extract_allergies`. -/
def extract_allergies (query : String) (p : TravelerProfile) : TravelerProfile :=
  if ALLERGY_KEYWORDS.any (fun kw => strContains query kw) then
    COMMON_ALLERGENS.foldl
      (fun p allergen =>
        if strContains query allergen && !(p.allergies.contains allergen) then
          { p with allergies := p.allergies ++ [allergen] }
        else p) p
  else p

def SOLO_PATTERNS : List String := ["solo", "alone", "by myself", "just me"]

def COUPLE_PATTERNS : List String :=
  ["couple", "two of us", "partner and i", "my partner"]

def GROUP_WORDS : List String := ["people", "persons", "travelers", "of us"]

/-- Decimal value of a digit run. -/
def digitsToNat (cs : List Char) : Nat :=
  cs.foldl (fun n c => n * 10 + (c.toNat - 48)) 0

/-- After a digit run: greedy whitespace, then one of the group words
(the regex tail `\s*(people|persons|travelers|of us)`). -/
def groupTailMatch (cs : List Char) : Bool :=
  let afterWs := cs.dropWhile Char.isWhitespace
  GROUP_WORDS.any (fun w => prefixMatch w.toList afterWs)

/-- Left-to-right scan for `re.search(r'(\d+)\s*(people|persons|travelers|of us)')`:
accumulate the current digit run; when it ends, test the tail.  (Backtracking
inside the digit run cannot succeed — a shorter run leaves a digit where a
group word is required — so the greedy scan is exact.) -/
def groupSizeScan : Option Nat → List Char → Option Nat
  | _, [] => none
  | acc, c :: rest =>
    if c.isDigit then
      groupSizeScan (some ((acc.getD 0) * 10 + (c.toNat - 48))) rest
    else
      match acc with
      | some n => if groupTailMatch (c :: rest) then some n else groupSizeScan none rest
      | none => groupSizeScan none rest

/-- `_extract_group_size`. -/
def extract_group_size (query : String) (p : TravelerProfile) : TravelerProfile :=
  if SOLO_PATTERNS.any (fun pat => strContains query pat) then
    { p with group_size := 1 }
  else if COUPLE_PATTERNS.any (fun pat => strContains query pat) then
    { p with group_size := 2 }
  else
    match groupSizeScan none query.toList with
    | some n => { p with group_size := n }
    | none => p

/-- `_summarize_extractions`. -/
def summarize_extractions (p : TravelerProfile) : List String :=
  (if !p.dietary_restrictions.isEmpty then
    ["Dietary: " ++ String.intercalate ", " p.dietary_restrictions] else []) ++
  (if !p.religious_requirements.isEmpty then
    ["Religious: " ++ String.intercalate ", " p.religious_requirements] else []) ++
  (if !p.allergies.isEmpty then
    ["Allergies: " ++ String.intercalate ", " p.allergies] else []) ++
  ["Budget: " ++ p.budget_level] ++
  (if !p.interests.isEmpty then
    ["Interests: " ++ String.intercalate ", " p.interests] else []) ++
  ["Group size: " ++ toString p.group_size]

/-- `_generate_follow_up_questions`. -/
def generate_follow_up_questions (p : TravelerProfile) : List String :=
  (if p.dietary_restrictions.isEmpty && p.religious_requirements.isEmpty then
    ["Do you have any dietary restrictions or food preferences I should know about?"]
   else []) ++
  (if p.interests.isEmpty then
    ["What type of travel experience are you looking for? (adventure, relaxation, cultural, etc.)"]
   else []) ++
  (if p.group_size == 1 then
    ["Will you be traveling solo, or with others?"]
   else [])

/-- The dict a profiler call returns
(`{"agent","profile","extracted_preferences","follow_up_questions","status"}`). -/
structure ProfilerResponse where
  agent : String
  profile : TravelerProfile
  extracted_preferences : List String
  follow_up_questions : List String
  status : String
deriving DecidableEq, Repr

/-- `ProfilerAgent.process` of the keyword profiler, with the instance field
`self.current_profile` threaded explicitly (input = field before the call,
first output = field after the call, which the method mutates in place). -/
def profilerProcess (current_profile : TravelerProfile) (query : String) :
    TravelerProfile × ProfilerResponse :=
  let q := strLower query
  let p := extract_dietary q current_profile
  let p := extract_religious q p
  let p := extract_budget q p
  let p := extract_travel_style q p
  let p := extract_allergies q p
  let p := extract_group_size q p
  (p,
   { agent := "profiler"
     profile := p
     extracted_preferences := summarize_extractions p
     follow_up_questions := generate_follow_up_questions p
     status := "profile_updated" })

/-- The server keeps a single `AntigravityAgentManager` (module-level
`agent_manager` in main.py) whose profiler instance — and hence its
`current_profile` field — is shared by every request. -/
structure ServerState where
  current_profile : TravelerProfile
deriving DecidableEq, Repr

/-- One Profile-Step request against the shared server state. -/
def serverProfileStep (s : ServerState) (query : String) :
    ServerState × ProfilerResponse :=
  let (p, r) := profilerProcess s.current_profile query
  ({ current_profile := p }, r)

/-! ## The LLM profiler (backend/agents/profiler.py)

`ProfilerAgent.async_process` builds a prompt from the raw input and the
serialized `self.current_profile`, always invokes the Reasoning Service
(`self.generate_response`), and parses the reply as JSON.  The Reasoning
Service together with the JSON parse is modelled as an oracle
`llm : String → TravelerProfile → Option LLMData`, applied to exactly the two
values the source serializes into the prompt; `none` is the
`json.JSONDecodeError` branch.  The embedding additionally returns the number
of Reasoning-Service invocations the call performed. -/

/-- The parsed JSON reply:
`{"profile": {...}, "changes": [...], "follow_up_questions": [...]}`. -/
structure LLMData where
  profile : List (String × PVal)
  changes : List String
  follow_up_questions : List String

/-- One step of `ProfilerAgent._update_profile`: keys without a matching
dataclass attribute are skipped (`hasattr` is false); a list value on
a list attribute is merged with `list(set(current + value))` (modelled as
duplicate-erasing concatenation; Python's set iteration order is
unspecified); other matches overwrite the scalar attribute.  Updates whose
value's shape disagrees with the attribute (Python would type-pun the slot
via `setattr`) are not representable and are skipped. -/
def updateProfileField (p : TravelerProfile) : String × PVal → TravelerProfile
  | ("dietary_restrictions", .l vs) =>
      { p with dietary_restrictions := (p.dietary_restrictions ++ vs).eraseDups }
  | ("religious_requirements", .l vs) =>
      { p with religious_requirements := (p.religious_requirements ++ vs).eraseDups }
  | ("allergies", .l vs) =>
      { p with allergies := (p.allergies ++ vs).eraseDups }
  | ("accessibility_needs", .l vs) =>
      { p with accessibility_needs := (p.accessibility_needs ++ vs).eraseDups }
  | ("interests", .l vs) =>
      { p with interests := (p.interests ++ vs).eraseDups }
  | ("language_preferences", .l vs) =>
      { p with language_preferences := (p.language_preferences ++ vs).eraseDups }
  | ("budget_level", .s v) => { p with budget_level := v }
  | ("travel_style", .s v) => { p with travel_style := v }
  | ("group_size", .n v) => { p with group_size := v }
  | _ => p

/-- `ProfilerAgent._update_profile` (backend): fold the delta's items. -/
def update_profile (p : TravelerProfile) (new_data : List (String × PVal)) :
    TravelerProfile :=
  new_data.foldl updateProfileField p

/-- `ProfilerAgent.async_process` (backend).  Returns the mutated
`current_profile`, the response dict, and the number of Reasoning-Service
calls made (the source has no fast path: `generate_response` is awaited
unconditionally, on every input). -/
def backendAsyncProcess (llm : String → TravelerProfile → Option LLMData)
    (current_profile : TravelerProfile) (query : String) :
    TravelerProfile × ProfilerResponse × Nat :=
  match llm query current_profile with
  | some data =>
      let p := update_profile current_profile data.profile
      (p,
       { agent := "profiler"
         profile := p
         extracted_preferences := data.changes
         follow_up_questions := data.follow_up_questions
         status := "profile_updated" }, 1)
  | none =>
      (current_profile,
       { agent := "profiler"
         profile := current_profile
         extracted_preferences := []
         follow_up_questions := ["Could you provide more details about your trip?"]
         status := "error_parsing_llm" }, 1)

/-! ## The orchestrator (main.py, `AntigravityAgentManager.run_workflow`)

Phases: Profiling → gate → parallel Research (`asyncio.gather` with
`return_exceptions=True`) → Optimization → background media task → response.
Each agent is an oracle returning `Except String _` (`.error` = a raised
exception).  The embedding also returns the trace of agent invocations, in
program order, recording the argument each agent was invoked with. -/

def RESEARCH_KEYWORDS : List String :=
  ["plan", "itinerary", "go to", "trip", "book", "schedule", "travel", "visit",
   "fly", "destination"]

/-- `AntigravityAgentManager._should_trigger_research`: a trip-intent keyword
in the lower-cased message, or a truthy `destination` in the profile dict.
(The caller-supplied context is not consulted.) -/
def shouldTriggerResearch (message : String) (profile : List (String × PVal)) : Bool :=
  RESEARCH_KEYWORDS.any (fun k => strContains (strLower message) k) ||
  (match dictGet profile "destination" with
   | some v => pvTruthy v
   | none => false)

/-- String content of a `PVal` in a position where the source interpolates it
into a query string (destinations are strings in every reachable case). -/
def pvStr : PVal → String
  | .s s => s
  | .l _ => ""
  | .n _ => ""

/-- `updated_profile.get("destination") or current_context.get("destination")
or "Paris"`: first truthy value, else the hard-coded `"Paris"`. -/
def resolveDestination (profile : List (String × PVal)) (ctxDestination : Option String) :
    String :=
  match dictGet profile "destination" with
  | some v =>
      if pvTruthy v then pvStr v
      else match ctxDestination with
           | some s => if !s.toList.isEmpty then s else "Paris"
           | none => "Paris"
  | none =>
      match ctxDestination with
      | some s => if !s.toList.isEmpty then s else "Paris"
      | none => "Paris"

/-- The synthesis context handed to the Optimizer (main.py lines 306-311):
per-provider result lists, `[]` when that provider's task raised. -/
structure SynthesisContext (Item : Type) where
  profile : List (String × PVal)
  destinations : List Item
  trends : List Item
  accommodations : List Item
deriving DecidableEq, Repr

/-- `x.get(key, []) if not isinstance(x, Exception) else []`. -/
def exceptResults {Item : Type} : Except String (List Item) → List Item
  | .ok xs => xs
  | .error _ => []

/-- One recorded agent invocation of `run_workflow`, with its argument. -/
inductive WorkflowCall (Item : Type) where
  | profilerCall (message : String)
  | providerCall (name : String) (query : String)
  | optimizerCall (ctx : SynthesisContext Item)
  | enqueueMediaTask
deriving DecidableEq, Repr

/-- The `AgentResponse` pydantic model (the fields `run_workflow` populates). -/
structure AgentResponse (Item Plan : Type) where
  agent : String
  status : String
  message : String
  profile : Option (List (String × PVal))
  data : Option Plan
  creative_status : Option String
deriving DecidableEq, Repr

/-- `AntigravityAgentManager.run_workflow`.  Oracles: the profiler (its reply
dict or a raised exception), the three research providers (each returning its
result list — `results` for pathfinder/concierge, `trends` for the trend
spotter — or raising), and the optimizer (the final plan paired with the
message text `final_plan.get("summary", ...)`, or raising).  Returns the
response or the exception that propagated, plus the invocation trace. -/
def runWorkflow {Item Plan : Type}
    (profiler : String → Except String ProfilerResponse)
    (pathfinder : String → Except String (List Item))
    (trend_spotter : String → Except String (List Item))
    (concierge : String → Except String (List Item))
    (optimizer : SynthesisContext Item → Except String (Plan × String))
    (user_message : String) (ctxDestination : Option String) :
    Except String (AgentResponse Item Plan) × List (WorkflowCall Item) :=
  match profiler user_message with
  | .error e => (.error e, [.profilerCall user_message])
  | .ok profile_result =>
    let updated_profile := profile_result.profile.to_dict
    if !shouldTriggerResearch user_message updated_profile then
      let follow_ups := profile_result.follow_up_questions
      let changes := profile_result.extracted_preferences
      let message :=
        if !follow_ups.isEmpty then String.intercalate "\n" follow_ups
        else match changes with
             | c :: _ => c
             | [] => "Tell me more about your trip!"
      (.ok { agent := "profiler", status := "success", message := message
             profile := some updated_profile, data := none, creative_status := none },
       [.profilerCall user_message])
    else
      let destination := resolveDestination updated_profile ctxDestination
      let path_data := pathfinder destination
      let trend_data := trend_spotter ("trends in " ++ destination)
      let concierge_data := concierge destination
      let synthesis_context : SynthesisContext Item :=
        { profile := updated_profile
          destinations := exceptResults path_data
          trends := exceptResults trend_data
          accommodations := exceptResults concierge_data }
      let calls : List (WorkflowCall Item) :=
        [.profilerCall user_message,
         .providerCall "pathfinder" destination,
         .providerCall "trend_spotter" ("trends in " ++ destination),
         .providerCall "concierge" destination,
         .optimizerCall synthesis_context]
      match optimizer synthesis_context with
      | .error e => (.error e, calls)
      | .ok (final_plan, summary) =>
          (.ok { agent := "optimizer", status := "success", message := summary
                 profile := some updated_profile, data := some final_plan
                 creative_status := some "generating" },
           calls ++ [.enqueueMediaTask])

/-- Result of the HTTP chat endpoint as seen by the caller. -/
inductive HttpOutcome (A : Type) where
  | ok (response : A)
  | httpError (code : Nat)
deriving DecidableEq, Repr

/-- `chat_endpoint` (main.py), on the no-existing-itinerary path: the whole
workflow runs inside `try/except Exception`, and any exception becomes
`HTTPException(status_code=500)` — a hard error for the whole request. -/
def chatEndpoint {Item Plan : Type}
    (profiler : String → Except String ProfilerResponse)
    (pathfinder : String → Except String (List Item))
    (trend_spotter : String → Except String (List Item))
    (concierge : String → Except String (List Item))
    (optimizer : SynthesisContext Item → Except String (Plan × String))
    (user_message : String) (ctxDestination : Option String) :
    HttpOutcome (AgentResponse Item Plan) :=
  match (runWorkflow profiler pathfinder trend_spotter concierge optimizer
          user_message ctxDestination).1 with
  | .ok r => .ok r
  | .error _ => .httpError 500

/-! ## The broadening retry loop (backend/agents/trend_spotter.py)

`TrendSpotterAgent.async_process` wraps the two social-data fetches in a
bounded retry loop (`max_retries = 3`), asking the Reasoning Service for a
broader location when an attempt yields no posts (or when downstream
synthesis yields no trends).  Oracles:
  * `social` — the two `SocialTools` calls; `.error` models an exception,
    which `_fetch_social_data` converts to `([], [])`;
  * `broadenLLM` — `generate_response` inside `_generate_broadening_query`,
    as a function of the location interpolated into the prompt;
  * `synth` — `_synthesize_trends` (LLM call plus JSON parse; parse failure
    already yields `[]` in the source). -/

structure TrendOracles where
  social : String → Except String (List String × List String)
  broadenLLM : String → String
  synth : String → List String → List String → List String

/-- `_fetch_social_data`: any exception becomes `([], [])`. -/
def fetch_social_data (o : TrendOracles) (location : String) :
    List String × List String :=
  match o.social location with
  | .ok p => p
  | .error _ => ([], [])

/-- `response.strip().replace('"', '').replace("'", "")`. -/
def cleanBroadenReply (s : String) : String :=
  let ws := fun c : Char => c.isWhitespace
  let stripped := ((s.toList.dropWhile ws).reverse.dropWhile ws).reverse
  String.mk (stripped.filter (fun c => c != Char.ofNat 34 && c != Char.ofNat 39))

/-- `_generate_broadening_query`: on `attempt >= 3` return the location
unchanged without contacting the Reasoning Service; otherwise one
Reasoning-Service call, cleaned up.  The second component counts the
Reasoning-Service calls made (0 or 1). -/
def generate_broadening_query (o : TrendOracles) (location : String) (attempt : Nat) :
    String × Nat :=
  if attempt ≥ 3 then (location, 0)
  else (cleanBroadenReply (o.broadenLLM location), 1)

/-- State returned by the loop: final location, final trends, last raw count,
Reasoning-Service calls made by broadening, attempts used. -/
structure TrendLoopOut where
  location : String
  final_trends : List String
  raw_count : Nat
  broadenCalls : Nat
  attempts : Nat
deriving DecidableEq, Repr

/-- The `while attempt < max_retries` loop of `async_process`, recursing on
the remaining attempt budget (`max_retries - attempt`), with the mutable
locals threaded. -/
def trendLoop (o : TrendOracles) :
    Nat → Nat → String → List String → Nat → Nat → TrendLoopOut
  | 0, attempt, location, final_trends, raw_count, calls =>
      ⟨location, final_trends, raw_count, calls, attempt⟩
  | remaining + 1, attempt, location, final_trends, _, calls =>
      let attempt := attempt + 1
      let (raw_trends, formatted_posts) := fetch_social_data o location
      let raw_count := formatted_posts.length
      if raw_count == 0 then
        let (location2, c) := generate_broadening_query o location attempt
        trendLoop o remaining attempt location2 final_trends raw_count (calls + c)
      else
        let final_trends := o.synth location raw_trends formatted_posts
        if !final_trends.isEmpty then
          ⟨location, final_trends, raw_count, calls, attempt⟩
        else
          let (location2, c) := generate_broadening_query o location attempt
          trendLoop o remaining attempt location2 final_trends raw_count (calls + c)

/-- The reply dict of `TrendSpotterAgent.async_process`. -/
structure TrendResult where
  trends : List String
  raw_count : Nat
  status : String
  searched_location : String
deriving DecidableEq, Repr

/-- `TrendSpotterAgent.async_process` (backend): `max_retries = 3`,
`original_location = context.get("destination", "Global")`.  Also returns the
number of broadening Reasoning-Service calls and the attempts used. -/
def trendAsyncProcess (o : TrendOracles) (ctxDestination : Option String) :
    TrendResult × Nat × Nat :=
  let original_location := ctxDestination.getD "Global"
  let out := trendLoop o 3 0 original_location [] 0 0
  ({ trends := out.final_trends
     raw_count := out.raw_count
     status := if !out.final_trends.isEmpty then "success" else "partial_success"
     searched_location := out.location },
   out.broadenCalls, out.attempts)

/-! ## The background task subsystem (tasks.py, asyncio mode)

The durable keyed store (Redis) is an association list from task id to
record; `save_task_status` is a full-record replace (`SETEX task:{id}`), and
`get_task_status` a pure read.  `start_background_task` merely schedules
`generate_media_background` with `asyncio.create_task` — it performs no store
write of its own, so the store is unchanged at enqueue time.  The body's
effect on the store is its ordered write trace; reads interleaved with the
body observe the store after some prefix of that trace. -/

structure TaskRecord where
  status : String
  updated_at : Nat
  result : List (String × String)
deriving DecidableEq, Repr

def TaskStore := List (String × TaskRecord)

/-- `save_task_status`: full-record replace under key `task:{task_id}`
(the new binding shadows any previous one). -/
def save_task_status (store : TaskStore) (task_id : String) (status : String)
    (now : Nat) (result : List (String × String)) : TaskStore :=
  (task_id, { status := status, updated_at := now, result := result }) :: store

/-- `get_task_status`: read the current record, `none` when absent/expired. -/
def get_task_status (store : TaskStore) (task_id : String) : Option TaskRecord :=
  (store.find? (fun kv => kv.1 == task_id)).map (fun kv => kv.2)

/-- `start_background_task` (asyncio mode): `asyncio.create_task(...)` only
schedules the body; no task record is written at enqueue time. -/
def start_background_task (store : TaskStore) : TaskStore := store

/-- Outcome of the `CreativeDirectorAgent.async_process` call inside the
body: a result payload, or a raised exception. -/
inductive MediaOutcome where
  | success (result : List (String × String))
  | failure (err : String)
deriving DecidableEq, Repr

/-- The ordered trace of `save_task_status` writes `generate_media_background`
performs for its task id: `"generating"` before the work, then `"completed"`
with the payload, or `"failed"` with the error from the `except` branch.
(The best-effort database update between the two writes touches only the
`Itinerary` table, never the task record, and swallows its own errors.) -/
def generate_media_writes : MediaOutcome → List (String × List (String × String))
  | .success result => [("generating", []), ("completed", result)]
  | .failure err => [("generating", []), ("failed", [("error", err)])]

/-- Apply a prefix of the body's write trace to the store, stamping
successive write times. -/
def applyBodyWrites (store : TaskStore) (task_id : String) (t0 : Nat) :
    List (String × List (String × String)) → TaskStore
  | [] => store
  | (status, result) :: rest =>
      applyBodyWrites (save_task_status store task_id status t0 result) task_id (t0 + 1) rest

/-- A terminal task status. -/
def terminalStatus (s : String) : Bool := s == "completed" || s == "failed"

/-! ## The itinerary builder (just-travel-app/agents/optimizer.py)

`OptimizerAgent._build_itinerary` loops `day_num` over `1..num_days`,
assigning each `DayPlan` the date `start_date + timedelta(days=day_num - 1)`
and `day_number = day_num`, selecting activities greedily and marking the
selected ones used.  Dates are modelled as epoch-day integers (the source
stores `date.strftime("%Y-%m-%d")`); times of day as minutes since midnight
(the source stores `"%H:%M"` strings).  The activity pool is taken
already prioritized (`_prioritize_activities` sorts by a float score that
does not affect any date), and the restaurants list already filtered. -/

structure ActivityRec where
  name : String
  type : String
  duration : Nat
  used : Bool
deriving DecidableEq, Repr

structure TimeSlot where
  start_time : Nat
  end_time : Nat
  activity_type : String
  activity_name : String
  location : String
  notes : String
deriving DecidableEq, Repr

structure DayPlan where
  date : Int
  day_number : Nat
  theme : String
  time_slots : List TimeSlot
  total_travel_time : Nat
  estimated_cost : Nat
deriving DecidableEq, Repr

/-- The selection walk of `_select_day_activities` over the not-yet-used
activities (paired with their indices in the master list): break at 5
activities, skip an activity that would push the day past 8 hours. -/
def selectWalk : List (Nat × ActivityRec) → Nat → Nat → List Nat
  | [], _, _ => []
  | (i, a) :: rest, count, total_duration =>
    if count ≥ 5 then []
    else if total_duration + a.duration > 480 then selectWalk rest count total_duration
    else i :: selectWalk rest (count + 1) (total_duration + a.duration)

/-- `_select_day_activities`, returning the master-list positions of the
selected activities (the source returns the dict references themselves;
positions model that identity for the later in-place `used` marking). -/
def select_day_activities (activities : List ActivityRec) : List Nat :=
  selectWalk ((activities.enum).filter (fun p => !p.2.used)) 0 0

/-- `_determine_day_theme`. -/
def determine_day_theme (activities : List ActivityRec) : String :=
  if activities.isEmpty then "Exploration Day"
  else
    let types := activities.map (fun a => a.type)
    if types.count "museum" ≥ 2 then "Culture & History Day"
    else if types.count "park" ≥ 2 || types.count "beach" ≥ 1 then "Nature & Relaxation Day"
    else if types.count "shopping" ≥ 2 then "Shopping & Markets Day"
    else if types.contains "trending" then "Local Discoveries Day"
    else "Mixed Adventure Day"

/-- The activity-slot builder shared by the morning and afternoon blocks of
`_create_day_plan`: each slot runs `duration` minutes from the current time,
and the current time then advances by `duration + 30` (the buffer). -/
def buildSlots (current_time : Nat) : List ActivityRec → List TimeSlot
  | [] => []
  | a :: rest =>
      { start_time := current_time
        end_time := current_time + a.duration
        activity_type := a.type
        activity_name := a.name
        location := a.name
        notes := "" } :: buildSlots (current_time + a.duration + 30) rest

/-- `_create_day_plan`: morning = first two selected activities from 09:00,
lunch 12:30-14:00, afternoon = the rest from 14:00, dinner 19:00-20:30;
estimated cost from the profile's budget level. -/
def create_day_plan (date : Int) (day_number : Nat) (activities : List ActivityRec)
    (restaurants : List ActivityRec) (profile : List (String × PVal)) : DayPlan :=
  let lunch_location :=
    match restaurants with
    | r :: _ => r.name
    | [] => "Local restaurant"
  let dinner_location :=
    match restaurants with
    | _ :: r :: _ => r.name
    | _ => "Local restaurant"
  let lunch : TimeSlot :=
    { start_time := 750, end_time := 840, activity_type := "meal"
      activity_name := "Lunch", location := lunch_location, notes := "Try local cuisine!" }
  let dinner : TimeSlot :=
    { start_time := 1140, end_time := 1230, activity_type := "meal"
      activity_name := "Dinner", location := dinner_location, notes := "" }
  let budget_level :=
    match dictGet profile "budget_level" with
    | some (.s s) => s
    | _ => "moderate"
  let cost :=
    if budget_level == "budget" then 50
    else if budget_level == "moderate" then 100
    else if budget_level == "luxury" then 200
    else 100
  { date := date
    day_number := day_number
    theme := determine_day_theme activities
    time_slots :=
      buildSlots 540 (activities.take 2) ++ [lunch] ++
      buildSlots 840 (activities.drop 2) ++ [dinner]
    total_travel_time := 0
    estimated_cost := cost }

/-- Mark the activities at the given master-list positions as used
(the in-place `activity["used"] = True` of `_build_itinerary`). -/
def markUsed (activities : List ActivityRec) (idxs : List Nat) : List ActivityRec :=
  (activities.enum).map (fun p => if idxs.contains p.1 then { p.2 with used := true } else p.2)

/-- The `for day_num in range(1, num_days + 1)` loop of `_build_itinerary`,
recursing on the remaining day count. -/
def buildItineraryGo (start_date : Int) (restaurants : List ActivityRec)
    (profile : List (String × PVal)) :
    Nat → Nat → List ActivityRec → List DayPlan
  | 0, _, _ => []
  | remaining + 1, day_num, activities =>
      let idxs := select_day_activities activities
      let day_activities := idxs.filterMap (fun i => activities.get? i)
      let plan := create_day_plan (start_date + (day_num : Int) - 1) day_num
        day_activities restaurants profile
      plan :: buildItineraryGo start_date restaurants profile remaining (day_num + 1)
        (markUsed activities idxs)

/-- `_build_itinerary` over an already-prioritized activity pool. -/
def build_itinerary (num_days : Nat) (start_date : Int)
    (profile : List (String × PVal)) (activities restaurants : List ActivityRec) :
    List DayPlan :=
  buildItineraryGo start_date restaurants profile num_days 1 activities

/-! ## Claims -/

/-- C1 (counterexample).  The Profile Step is NOT independent of previously
processed requests: with the same raw input `"hello"` and the same
caller-supplied context, the response differs depending on whether the shared
singleton's profiler previously processed `"i am vegan"` for some other
request — `process` reads and mutates `self.current_profile`, state held by
the module-level `agent_manager` across requests. -/
theorem C1_profileStep_depends_on_prior_requests :
    (profilerProcess (profilerProcess defaultProfile "i am vegan").1 "hello").2 ≠
      (profilerProcess defaultProfile "hello").2 ∧
    (profilerProcess defaultProfile "i am vegan").1 ≠ defaultProfile := by
  constructor
  · decide
  · decide

/-- C1 (amended).  The Profile Step holds server-side mutable session state:
its result is a function of the raw input and the server-held shared
`current_profile` (not of a caller-supplied snapshot), the returned profile
equals that shared state as mutated by the call, and the mutated state is
what the next request (from any caller) observes. -/
theorem C1_profileStep_reads_and_writes_shared_state :
    ∀ (s : ServerState) (q : String),
      ((serverProfileStep s q).2).profile = (serverProfileStep s q).1.current_profile ∧
      (serverProfileStep s q).2 = (profilerProcess s.current_profile q).2 := by
  intro s q
  constructor
  · simp [serverProfileStep, profilerProcess]
  · simp [serverProfileStep]

/-- C2 (code bug, evaluated at the failing input `"hi"`).  The source has no
greeting fast path: the backend profiler's `async_process` invokes the
Reasoning Service exactly once on `"hi"` (as on every input) and reports
status `"error_parsing_llm"`/`"profile_updated"`, never `"greeted"`; and the
keyword profiler returns a non-empty extraction summary and three follow-up
questions on `"hi"` — all contradicting the spec and the repository's own
test `verify_new_features.py::test_greeting_returns_immediately` (status
`"greeted"`, empty summary, one canned question, no LLM call). -/
theorem C2_greeting_input_still_calls_reasoning_service :
    (backendAsyncProcess (fun _ _ => none) defaultProfile "hi").2.2 = 1 ∧
    (backendAsyncProcess (fun _ _ => none) defaultProfile "hi").2.1.status =
      "error_parsing_llm" ∧
    ((profilerProcess defaultProfile "hi").2).extracted_preferences ≠ [] ∧
    ((profilerProcess defaultProfile "hi").2).follow_up_questions.length = 3 := by
  refine ⟨rfl, rfl, ?_, ?_⟩ <;> decide

/-- C3 (counterexample).  `start_background_task` performs no store write, so
a status read performed immediately after enqueue — before the background
body's first write — finds no record at all: the read is absent, not
`pending`; no record with status `pending` exists at enqueue time. -/
theorem C3_enqueue_writes_no_pending_record :
    get_task_status (start_background_task []) "t1" = none := rfl

/-- C3 (amended).  For a fresh task id, a status read after enqueue and
before the background body has completed returns either no record (before
the body's first write) or a record with status `"generating"` — never
`"completed"`, and never `"pending"`, which is not a status this subsystem
ever stores. -/
theorem C3_status_read_before_completion :
    ∀ (store : TaskStore) (tid : String) (o : MediaOutcome) (t0 k : Nat),
      get_task_status store tid = none →
      k < (generate_media_writes o).length →
      (get_task_status
          (applyBodyWrites (start_background_task store) tid t0
            ((generate_media_writes o).take k)) tid = none ∨
        (get_task_status
            (applyBodyWrites (start_background_task store) tid t0
              ((generate_media_writes o).take k)) tid).map TaskRecord.status =
          some "generating") ∧
      (get_task_status
          (applyBodyWrites (start_background_task store) tid t0
            ((generate_media_writes o).take k)) tid).map TaskRecord.status ≠
        some "completed" ∧
      (get_task_status
          (applyBodyWrites (start_background_task store) tid t0
            ((generate_media_writes o).take k)) tid).map TaskRecord.status ≠
        some "pending" := by
  intro store tid o t0 k hfresh hk
  have hlen : (generate_media_writes o).length = 2 := by
    cases o <;> rfl
  rw [hlen] at hk
  interval_cases k
  · cases o <;>
      simp_all [applyBodyWrites, start_background_task, generate_media_writes]
  · cases o <;>
      simp_all [applyBodyWrites, start_background_task, generate_media_writes,
        save_task_status, get_task_status]

/-- C3 (witness). -/
theorem C3_status_read_before_completion_witness :
    (get_task_status
        (applyBodyWrites (start_background_task []) "t1" 0
          ((generate_media_writes (.success [("poster_url", "p")])).take 1)) "t1" = none ∨
      (get_task_status
          (applyBodyWrites (start_background_task []) "t1" 0
            ((generate_media_writes (.success [("poster_url", "p")])).take 1)) "t1").map
        TaskRecord.status = some "generating") ∧
    (get_task_status
        (applyBodyWrites (start_background_task []) "t1" 0
          ((generate_media_writes (.success [("poster_url", "p")])).take 1)) "t1").map
      TaskRecord.status ≠ some "completed" ∧
    (get_task_status
        (applyBodyWrites (start_background_task []) "t1" 0
          ((generate_media_writes (.success [("poster_url", "p")])).take 1)) "t1").map
      TaskRecord.status ≠ some "pending" :=
  C3_status_read_before_completion [] "t1" (.success [("poster_url", "p")]) 0 1
    rfl (by decide)

/-- C9.  Once the background body has written a record with terminal status
(`completed` or `failed`) for a fresh task id, no further operation of the
subsystem modifies that record: every status read performed after any later
prefix of the body's write trace — in particular every repeated `getStatus`
of a completed task before expiration — returns the identical record. -/
theorem C9_terminal_record_immutable :
    ∀ (store : TaskStore) (tid : String) (o : MediaOutcome) (t0 k k' : Nat)
      (rec : TaskRecord),
      get_task_status store tid = none →
      k ≤ k' →
      get_task_status
          (applyBodyWrites (start_background_task store) tid t0
            ((generate_media_writes o).take k)) tid = some rec →
      terminalStatus rec.status = true →
      get_task_status
          (applyBodyWrites (start_background_task store) tid t0
            ((generate_media_writes o).take k')) tid = some rec := by
  intro store tid o t0 k k' rec hfresh hkk hread hterm
  match k, hkk with
  | 0, _ =>
    simp [applyBodyWrites, start_background_task, List.take] at hread
    rw [hread] at hfresh
    exact absurd hfresh (by simp)
  | 1, _ =>
    cases o <;>
      (simp [applyBodyWrites, start_background_task, generate_media_writes,
          save_task_status, get_task_status, List.take] at hread
       rw [← hread] at hterm
       simp [terminalStatus] at hterm)
  | n + 2, hkk =>
    match k', hkk with
    | m + 2, _ =>
      have h1 : (generate_media_writes o).take (n + 2) = generate_media_writes o := by
        cases o <;> simp [generate_media_writes]
      have h2 : (generate_media_writes o).take (m + 2) = generate_media_writes o := by
        cases o <;> simp [generate_media_writes]
      rw [h1] at hread
      rw [h2, ← hread]

/-- C9 (witness). -/
theorem C9_terminal_record_immutable_witness :
    get_task_status
        (applyBodyWrites (start_background_task []) "t1" 0
          ((generate_media_writes (.success [("poster_url", "p")])).take 3)) "t1" =
      some { status := "completed", updated_at := 1, result := [("poster_url", "p")] } :=
  C9_terminal_record_immutable [] "t1" (.success [("poster_url", "p")]) 0 2 3
    { status := "completed", updated_at := 1, result := [("poster_url", "p")] }
    rfl (by decide) rfl rfl

/-- Helper: the loop uses at most `r` further attempts. -/
theorem trendLoop_attempts_le (o : TrendOracles) :
    ∀ (r a : Nat) (loc : String) (ft : List String) (rc c : Nat),
      (trendLoop o r a loc ft rc c).attempts ≤ a + r := by
  intro r
  induction r with
  | zero => intro a loc ft rc c; simp [trendLoop]
  | succ n ih =>
    intro a loc ft rc c
    simp only [trendLoop]
    rcases hfp : fetch_social_data o loc with ⟨rt, fp⟩
    by_cases ha : 3 ≤ a + 1
    · simp only [generate_broadening_query, if_pos ha]
      by_cases hq : (fp.length == 0)
      · simp only [hq, if_true]
        have := ih (a + 1) loc ft fp.length (c + 0)
        omega
      · simp only [hq, Bool.false_eq_true, if_false]
        by_cases hs : (o.synth loc rt fp).isEmpty <;>
          simp only [hs, Bool.not_true, Bool.not_false, if_true, Bool.false_eq_true, if_false]
        · have := ih (a + 1) loc (o.synth loc rt fp) fp.length (c + 0)
          omega
        · omega
    · simp only [generate_broadening_query, if_neg ha]
      by_cases hq : (fp.length == 0)
      · simp only [hq, if_true]
        have := ih (a + 1) (cleanBroadenReply (o.broadenLLM loc)) ft fp.length (c + 1)
        omega
      · simp only [hq, Bool.false_eq_true, if_false]
        by_cases hs : (o.synth loc rt fp).isEmpty <;>
          simp only [hs, Bool.not_true, Bool.not_false, if_true, Bool.false_eq_true, if_false]
        · have := ih (a + 1) (cleanBroadenReply (o.broadenLLM loc))
            (o.synth loc rt fp) fp.length (c + 1)
          omega
        · omega

/-- Helper: broadening contacts the Reasoning Service only on attempts whose
number is below 3, so at most `min r (2 - a)` further calls are possible. -/
theorem trendLoop_calls_le (o : TrendOracles) :
    ∀ (r a : Nat) (loc : String) (ft : List String) (rc c : Nat),
      (trendLoop o r a loc ft rc c).broadenCalls ≤ c + min r (2 - a) := by
  intro r
  induction r with
  | zero => intro a loc ft rc c; simp [trendLoop]
  | succ n ih =>
    intro a loc ft rc c
    simp only [trendLoop]
    rcases hfp : fetch_social_data o loc with ⟨rt, fp⟩
    by_cases ha : 3 ≤ a + 1
    · simp only [generate_broadening_query, if_pos ha]
      by_cases hq : (fp.length == 0)
      · simp only [hq, if_true]
        have := ih (a + 1) loc ft fp.length (c + 0)
        omega
      · simp only [hq, Bool.false_eq_true, if_false]
        by_cases hs : (o.synth loc rt fp).isEmpty <;>
          simp only [hs, Bool.not_true, Bool.not_false, if_true, Bool.false_eq_true, if_false]
        · have := ih (a + 1) loc (o.synth loc rt fp) fp.length (c + 0)
          omega
        · omega
    · simp only [generate_broadening_query, if_neg ha]
      by_cases hq : (fp.length == 0)
      · simp only [hq, if_true]
        have := ih (a + 1) (cleanBroadenReply (o.broadenLLM loc)) ft fp.length (c + 1)
        omega
      · simp only [hq, Bool.false_eq_true, if_false]
        by_cases hs : (o.synth loc rt fp).isEmpty <;>
          simp only [hs, Bool.not_true, Bool.not_false, if_true, Bool.false_eq_true, if_false]
        · have := ih (a + 1) (cleanBroadenReply (o.broadenLLM loc))
            (o.synth loc rt fp) fp.length (c + 1)
          omega
        · omega

/-- C7.  The broadening discover loop performs at most `max_retries = 3`
attempts (it is a total function, hence always terminates); it makes at most
two broadening Reasoning-Service calls in any run; `_generate_broadening_query`
invoked with attempt number 3 — the final attempt — returns the location
unchanged and makes zero Reasoning-Service calls; and when every fetch is
empty the loop runs exactly 3 attempts with exactly 2 broadening
Reasoning-Service calls (none on the final attempt). -/
theorem C7_discover_attempt_and_broadening_bounds
    (o : TrendOracles) (ctxDestination : Option String) :
    (trendAsyncProcess o ctxDestination).2.2 ≤ 3 ∧
    (trendAsyncProcess o ctxDestination).2.1 ≤ 2 ∧
    (∀ loc, generate_broadening_query o loc 3 = (loc, 0)) ∧
    ((∀ loc, fetch_social_data o loc = ([], [])) →
      (trendAsyncProcess o ctxDestination).2.2 = 3 ∧
      (trendAsyncProcess o ctxDestination).2.1 = 2) := by
  refine ⟨?_, ?_, ?_, ?_⟩
  · simpa [trendAsyncProcess] using
      trendLoop_attempts_le o 3 0 (ctxDestination.getD "Global") [] 0 0
  · simpa [trendAsyncProcess] using
      trendLoop_calls_le o 3 0 (ctxDestination.getD "Global") [] 0 0
  · intro loc
    simp [generate_broadening_query]
  · intro hempty
    constructor <;>
      simp [trendAsyncProcess, trendLoop, hempty, generate_broadening_query]

/-- C7 (witness). -/
theorem C7_discover_attempt_and_broadening_bounds_witness :
    (trendAsyncProcess ⟨fun _ => .ok ([], []), fun l => l, fun _ _ _ => []⟩
        (some "Nowhere")).2.2 = 3 ∧
    (trendAsyncProcess ⟨fun _ => .ok ([], []), fun l => l, fun _ _ _ => []⟩
        (some "Nowhere")).2.1 = 2 :=
  (C7_discover_attempt_and_broadening_bounds
      ⟨fun _ => .ok ([], []), fun l => l, fun _ _ _ => []⟩
      (some "Nowhere")).2.2.2 (fun _ => rfl)

/-- C5 (counterexample).  With every fetch empty and a broadening oracle that
appends `"X"`, the exhausted loop reports `searched_location = "NowhereXX"`
— the twice-broadened query, not the original `"Nowhere"` — together with the
empty result list and `"partial_success"`: the claim that the original
initial query is returned is false. -/
theorem C5_exhausted_discover_returns_broadened_query :
    ((trendAsyncProcess ⟨fun _ => .ok ([], []), fun l => l ++ "X", fun _ _ _ => []⟩
        (some "Nowhere")).1).searched_location = "NowhereXX" ∧
    ((trendAsyncProcess ⟨fun _ => .ok ([], []), fun l => l ++ "X", fun _ _ _ => []⟩
        (some "Nowhere")).1).searched_location ≠ "Nowhere" ∧
    ((trendAsyncProcess ⟨fun _ => .ok ([], []), fun l => l ++ "X", fun _ _ _ => []⟩
        (some "Nowhere")).1).trends = [] ∧
    ((trendAsyncProcess ⟨fun _ => .ok ([], []), fun l => l ++ "X", fun _ _ _ => []⟩
        (some "Nowhere")).1).status = "partial_success" := by
  refine ⟨by decide, by decide, rfl, rfl⟩

/-- C5 (amended).  When the provider fetches yield empty results on all
attempts, the loop returns an empty result list and a `"partial_success"`
status, but the query it returns is the result of broadening the original
query twice (once after each of the first two failed attempts) — the
original query is returned only when both broadening replies leave it
unchanged. -/
theorem C5_exhausted_discover_partial_success
    (o : TrendOracles) (ctxDestination : Option String)
    (hempty : ∀ loc, fetch_social_data o loc = ([], [])) :
    ((trendAsyncProcess o ctxDestination).1).trends = [] ∧
    ((trendAsyncProcess o ctxDestination).1).status = "partial_success" ∧
    ((trendAsyncProcess o ctxDestination).1).searched_location =
      cleanBroadenReply (o.broadenLLM
        (cleanBroadenReply (o.broadenLLM (ctxDestination.getD "Global")))) := by
  simp [trendAsyncProcess, trendLoop, hempty, generate_broadening_query]

/-- C5 (witness). -/
theorem C5_exhausted_discover_partial_success_witness :
    ((trendAsyncProcess ⟨fun _ => .ok ([], []), fun l => l ++ "Y", fun _ _ _ => []⟩
        (some "Quartier")).1).trends = [] ∧
    ((trendAsyncProcess ⟨fun _ => .ok ([], []), fun l => l ++ "Y", fun _ _ _ => []⟩
        (some "Quartier")).1).status = "partial_success" ∧
    ((trendAsyncProcess ⟨fun _ => .ok ([], []), fun l => l ++ "Y", fun _ _ _ => []⟩
        (some "Quartier")).1).searched_location = "QuartierYY" := by
  have h := C5_exhausted_discover_partial_success
    ⟨fun _ => .ok ([], []), fun l => l ++ "Y", fun _ _ _ => []⟩
    (some "Quartier") (fun _ => rfl)
  exact ⟨h.1, h.2.1, by rw [h.2.2]; decide⟩

/-- The synthesis context `run_workflow` hands to the Optimizer, as a function
of the research oracles, the profiler's reply and the context destination. -/
def workflowSynthesisContext {Item : Type}
    (pathfinder trend_spotter concierge : String → Except String (List Item))
    (pr : ProfilerResponse) (ctxDestination : Option String) : SynthesisContext Item :=
  let updated_profile := pr.profile.to_dict
  let destination := resolveDestination updated_profile ctxDestination
  { profile := updated_profile
    destinations := exceptResults (pathfinder destination)
    trends := exceptResults (trend_spotter ("trends in " ++ destination))
    accommodations := exceptResults (concierge destination) }

/-- C4 (counterexample).  An exception raised in the Synthesizing phase DOES
propagate to the caller as a hard error for the whole request: with the
profiler succeeding, all three research providers succeeding, and the
optimizer raising, `chat_endpoint` answers HTTP 500. -/
theorem C4_synthesizing_exception_propagates_as_500 :
    @chatEndpoint String String
      (fun m => .ok (profilerProcess defaultProfile m).2)
      (fun _ => .ok ["louvre"]) (fun _ => .ok ["cafe trend"]) (fun _ => .ok ["hotel"])
      (fun _ => .error "optimizer exploded")
      "plan a trip" none = .httpError 500 := by
  rfl

/-- C4 (amended).  An exception raised inside a Researching provider never
propagates (with the profiler and optimizer succeeding, the workflow returns
a response no matter what the providers do); but an exception raised in the
Profiling phase OR in the Synthesizing (optimizer) phase propagates out of
`run_workflow` and aborts the whole request as a hard error. -/
theorem C4_failure_isolation_semantics {Item Plan : Type}
    (profiler : String → Except String ProfilerResponse)
    (pathfinder trend_spotter concierge : String → Except String (List Item))
    (optimizer : SynthesisContext Item → Except String (Plan × String))
    (msg : String) (ctxDestination : Option String) :
    (∀ e, profiler msg = .error e →
      (runWorkflow profiler pathfinder trend_spotter concierge optimizer
        msg ctxDestination).1 = .error e) ∧
    (∀ pr plan summary, profiler msg = .ok pr →
      optimizer (workflowSynthesisContext pathfinder trend_spotter concierge
        pr ctxDestination) = .ok (plan, summary) →
      ∃ r, (runWorkflow profiler pathfinder trend_spotter concierge optimizer
        msg ctxDestination).1 = .ok r) ∧
    (∀ pr e, profiler msg = .ok pr →
      shouldTriggerResearch msg pr.profile.to_dict = true →
      optimizer (workflowSynthesisContext pathfinder trend_spotter concierge
        pr ctxDestination) = .error e →
      (runWorkflow profiler pathfinder trend_spotter concierge optimizer
        msg ctxDestination).1 = .error e) := by
  refine ⟨?_, ?_, ?_⟩
  · intro e he
    simp [runWorkflow, he]
  · intro pr plan summary hp ho
    by_cases hg : shouldTriggerResearch msg pr.profile.to_dict
    · simp only [workflowSynthesisContext] at ho
      simp [runWorkflow, hp, hg, ho]
    · simp [runWorkflow, hp, hg]
  · intro pr e hp hg ho
    simp only [workflowSynthesisContext] at ho
    simp [runWorkflow, hp, hg, ho]

/-- C4 (witness). -/
theorem C4_failure_isolation_semantics_witness :
    (@runWorkflow String String
      (fun m => .ok (profilerProcess defaultProfile m).2)
      (fun _ => .ok ["louvre"]) (fun _ => .ok ["cafe trend"]) (fun _ => .ok ["hotel"])
      (fun _ => .error "boom") "plan a trip" none).1 = .error "boom" :=
  (C4_failure_isolation_semantics (fun m => .ok (profilerProcess defaultProfile m).2)
      (fun _ => .ok ["louvre"]) (fun _ => .ok ["cafe trend"]) (fun _ => .ok ["hotel"])
      (fun _ => .error "boom") "plan a trip" none).2.2
    (profilerProcess defaultProfile "plan a trip").2 "boom" rfl (by decide) rfl

/-- C6.  In the research fan-out, when one provider (here the trend spotter)
raises and the other two succeed, the merged synthesis context handed to the
Optimizer contains the empty list for the failing provider and the unaltered
result lists of the other two, and the orchestrator itself does not raise:
`run_workflow` returns the optimizer-phase response. -/
theorem C6_provider_failure_isolated_in_fanout {Item Plan : Type}
    (profiler : String → Except String ProfilerResponse)
    (pathfinder trend_spotter concierge : String → Except String (List Item))
    (optimizer : SynthesisContext Item → Except String (Plan × String))
    (msg : String) (ctxDestination : Option String)
    (pr : ProfilerResponse) (r1 r3 : List Item) (e : String)
    (plan : Plan) (summary : String)
    (hp : profiler msg = .ok pr)
    (hg : shouldTriggerResearch msg pr.profile.to_dict = true)
    (h1 : pathfinder (resolveDestination pr.profile.to_dict ctxDestination) = .ok r1)
    (h2 : trend_spotter ("trends in " ++
      resolveDestination pr.profile.to_dict ctxDestination) = .error e)
    (h3 : concierge (resolveDestination pr.profile.to_dict ctxDestination) = .ok r3)
    (ho : optimizer (SynthesisContext.mk pr.profile.to_dict r1 [] r3) =
      .ok (plan, summary)) :
    (runWorkflow profiler pathfinder trend_spotter concierge optimizer
        msg ctxDestination).1 =
      .ok (AgentResponse.mk "optimizer" "success" summary
        (some pr.profile.to_dict) (some plan) (some "generating")) ∧
    WorkflowCall.optimizerCall (SynthesisContext.mk pr.profile.to_dict r1 [] r3) ∈
      (runWorkflow profiler pathfinder trend_spotter concierge optimizer
        msg ctxDestination).2 := by
  constructor <;>
    simp [runWorkflow, hp, hg, h1, h2, h3, exceptResults, ho]

/-- C6 (witness). -/
theorem C6_provider_failure_isolated_in_fanout_witness :
    (@runWorkflow String String
        (fun m => .ok (profilerProcess defaultProfile m).2)
        (fun _ => .ok ["louvre"]) (fun _ => .error "apify outage") (fun _ => .ok ["hotel"])
        (fun _ => .ok ("the plan", "your plan"))
        "plan a trip" none).1 =
      .ok (AgentResponse.mk "optimizer" "success" "your plan"
        (some (profilerProcess defaultProfile "plan a trip").2.profile.to_dict)
        (some "the plan") (some "generating")) ∧
    WorkflowCall.optimizerCall (SynthesisContext.mk
        (profilerProcess defaultProfile "plan a trip").2.profile.to_dict
        ["louvre"] [] ["hotel"]) ∈
      (@runWorkflow String String
        (fun m => .ok (profilerProcess defaultProfile m).2)
        (fun _ => .ok ["louvre"]) (fun _ => .error "apify outage") (fun _ => .ok ["hotel"])
        (fun _ => .ok ("the plan", "your plan"))
        "plan a trip" none).2 :=
  C6_provider_failure_isolated_in_fanout
    (fun m => .ok (profilerProcess defaultProfile m).2)
    (fun _ => .ok ["louvre"]) (fun _ => .error "apify outage") (fun _ => .ok ["hotel"])
    (fun _ => .ok ("the plan", "your plan")) "plan a trip" none
    (profilerProcess defaultProfile "plan a trip").2 ["louvre"] ["hotel"]
    "apify outage" "the plan" "your plan"
    rfl (by decide) rfl rfl rfl rfl

/-- C10 (counterexample).  The gate's destination disjunct is NOT decided by
the caller-supplied context: `_should_trigger_research` never consults the
context, so with a keyword-free message and a context carrying destination
`"Tokyo"`, the gate is false and the workflow returns early after the
profiler call — no research is triggered even though the context contains a
destination. -/
theorem C10_context_destination_does_not_decide_gate :
    (@runWorkflow String String
        (fun m => .ok (profilerProcess defaultProfile m).2)
        (fun _ => .ok []) (fun _ => .ok []) (fun _ => .ok [])
        (fun _ => .ok ("plan", "summary"))
        "bonjour" (some "Tokyo")).2 = [.profilerCall "bonjour"] ∧
    shouldTriggerResearch "bonjour"
      ((profilerProcess defaultProfile "bonjour").2.profile.to_dict) = false := by
  exact ⟨rfl, by decide⟩

/-- C10 (amended).  A profile produced by the Profile Step can never carry a
`destination` key, so the gate's destination disjunct is constantly false and
the gate reduces to the trip-intent keyword test alone (the context plays no
role in the gate); and whenever the gate passes and the caller-supplied
context carries no (truthy) destination, the resolved destination is the
hard-coded `"Paris"`: all three research providers are invoked with
`"Paris"`-based queries and the Synthesis Step is invoked. -/
theorem C10_paris_fallback_and_gate_reduction {Item Plan : Type}
    (pathfinder trend_spotter concierge : String → Except String (List Item))
    (optimizer : SynthesisContext Item → Except String (Plan × String))
    (st : TravelerProfile) (msg : String) (ctxDestination : Option String) :
    dictGet ((profilerProcess st msg).2.profile.to_dict) "destination" = none ∧
    (shouldTriggerResearch msg ((profilerProcess st msg).2.profile.to_dict) =
      RESEARCH_KEYWORDS.any (fun k => strContains (strLower msg) k)) ∧
    ((ctxDestination = none ∨ ctxDestination = some "") →
      resolveDestination ((profilerProcess st msg).2.profile.to_dict) ctxDestination
        = "Paris") ∧
    ((ctxDestination = none ∨ ctxDestination = some "") →
      shouldTriggerResearch msg ((profilerProcess st msg).2.profile.to_dict) = true →
      (WorkflowCall.providerCall "pathfinder" "Paris" ∈
        (runWorkflow (fun m => .ok (profilerProcess st m).2) pathfinder trend_spotter
          concierge optimizer msg ctxDestination).2 ∧
       WorkflowCall.providerCall "trend_spotter" "trends in Paris" ∈
        (runWorkflow (fun m => .ok (profilerProcess st m).2) pathfinder trend_spotter
          concierge optimizer msg ctxDestination).2 ∧
       WorkflowCall.providerCall "concierge" "Paris" ∈
        (runWorkflow (fun m => .ok (profilerProcess st m).2) pathfinder trend_spotter
          concierge optimizer msg ctxDestination).2 ∧
       ∃ sc, WorkflowCall.optimizerCall sc ∈
        (runWorkflow (fun m => .ok (profilerProcess st m).2) pathfinder trend_spotter
          concierge optimizer msg ctxDestination).2)) := by
  have hd : dictGet ((profilerProcess st msg).2.profile.to_dict) "destination" = none := rfl
  have hdest : (ctxDestination = none ∨ ctxDestination = some "") →
      resolveDestination ((profilerProcess st msg).2.profile.to_dict) ctxDestination
        = "Paris" := by
    intro hc
    rcases hc with h | h <;> rw [h] <;> rfl
  refine ⟨hd, ?_, hdest, ?_⟩
  · simp [shouldTriggerResearch, hd]
  · intro hc hg
    have hp : resolveDestination ((profilerProcess st msg).2.profile.to_dict)
        ctxDestination = "Paris" := hdest hc
    simp only [runWorkflow, hg, hp]
    rcases hopt : optimizer (SynthesisContext.mk
        ((profilerProcess st msg).2.profile.to_dict)
        (exceptResults (pathfinder "Paris"))
        (exceptResults (trend_spotter ("trends in Paris")))
        (exceptResults (concierge "Paris"))) with e | p
    · simp [hopt]
    · simp [hopt]

/-- C10 (witness). -/
theorem C10_paris_fallback_and_gate_reduction_witness :
    WorkflowCall.providerCall "pathfinder" "Paris" ∈
      (@runWorkflow String String
        (fun m => .ok (profilerProcess defaultProfile m).2)
        (fun _ => .ok []) (fun _ => .ok []) (fun _ => .ok [])
        (fun _ => .ok ("plan", "summary")) "plan a trip" none).2 ∧
    WorkflowCall.providerCall "trend_spotter" "trends in Paris" ∈
      (@runWorkflow String String
        (fun m => .ok (profilerProcess defaultProfile m).2)
        (fun _ => .ok []) (fun _ => .ok []) (fun _ => .ok [])
        (fun _ => .ok ("plan", "summary")) "plan a trip" none).2 ∧
    WorkflowCall.providerCall "concierge" "Paris" ∈
      (@runWorkflow String String
        (fun m => .ok (profilerProcess defaultProfile m).2)
        (fun _ => .ok []) (fun _ => .ok []) (fun _ => .ok [])
        (fun _ => .ok ("plan", "summary")) "plan a trip" none).2 ∧
    ∃ sc, WorkflowCall.optimizerCall sc ∈
      (@runWorkflow String String
        (fun m => .ok (profilerProcess defaultProfile m).2)
        (fun _ => .ok []) (fun _ => .ok []) (fun _ => .ok [])
        (fun _ => .ok ("plan", "summary")) "plan a trip" none).2 :=
  (C10_paris_fallback_and_gate_reduction
      (fun _ => .ok []) (fun _ => .ok []) (fun _ => .ok [])
      (fun _ => .ok ("plan", "summary")) defaultProfile "plan a trip" none).2.2.2
    (Or.inl rfl) (by decide)

/-- Helper: the day-loop of `_build_itinerary` assigns day `i` (0-based, at
whatever loop position) the date `start_date + day_num + i - 1` and the day
number `day_num + i`, independent of the activity pool. -/
theorem buildItineraryGo_dates (start_date : Int) (restaurants : List ActivityRec)
    (profile : List (String × PVal)) :
    ∀ (remaining day_num : Nat) (activities : List ActivityRec),
      (buildItineraryGo start_date restaurants profile remaining day_num activities).map
          (fun d => (d.date, d.day_number)) =
        (List.range remaining).map
          (fun (i : Nat) => ((start_date + day_num + i - 1 : Int), day_num + i)) := by
  intro remaining
  induction remaining with
  | zero => intro day_num activities; simp [buildItineraryGo]
  | succ n ih =>
    intro day_num activities
    simp only [buildItineraryGo, List.map_cons]
    rw [List.range_succ_eq_map, List.map_cons, List.map_map, List.cons_eq_cons]
    refine ⟨?_, ?_⟩
    · simp [create_day_plan]
    · rw [ih (day_num + 1)]
      apply List.map_congr_left
      intro i _
      simp only [Function.comp_apply, Prod.mk.injEq]
      refine ⟨?_, by omega⟩
      push_cast
      ring

/-- C8.  For every plan built with `N` day-plans and resolved start date `D`,
the itinerary has exactly `N` days and day `i` (1-based) carries date
`D + (i - 1)` and `day_number = i`, in order — `D, D+1, …, D+N-1` —
regardless of the profile, activity pool or restaurant data. -/
theorem C8_day_dates_strictly_sequential (num_days : Nat) (start_date : Int)
    (profile : List (String × PVal)) (activities restaurants : List ActivityRec) :
    (build_itinerary num_days start_date profile activities restaurants).length
      = num_days ∧
    (build_itinerary num_days start_date profile activities restaurants).map
        (fun d => (d.date, d.day_number)) =
      (List.range num_days).map (fun (i : Nat) => ((start_date + i : Int), i + 1)) := by
  have h := buildItineraryGo_dates start_date restaurants profile num_days 1 activities
  rw [build_itinerary]
  constructor
  · have := congrArg List.length h
    simpa using this
  · rw [h]
    apply List.map_congr_left
    intro i _
    simp only [Prod.mk.injEq]
    refine ⟨?_, by omega⟩
    push_cast
    ring
